import Mathlib

/-!
Shallow embedding of the fraud_reviews review-acquisition and fraud-scoring
pipeline, together with theorems settling the specification claims.

Numbers that Python computes with `float` are modelled with exact rationals
(`ℚ`); instants in time are modelled as rational timestamps (seconds) where
only durations matter, and as a calendar record where minute truncation
matters.  Python dictionaries keyed by insertion order are modelled as
association lists, and Python `None` as `Option.none`.
-/

/-- Python `round` to an integer: round-half-to-even (banker's rounding),
as used by `round(x)` on exact values. -/
def pyRoundHalfEven (x : ℚ) : ℤ :=
  let f := Int.floor x
  let frac := x - f
  if frac < 1/2 then f
  else if 1/2 < frac then f + 1
  else if f % 2 = 0 then f else f + 1

/-- Python `round(x, 1)`: round to one decimal digit, ties to even. -/
def pyRound1 (x : ℚ) : ℚ :=
  (pyRoundHalfEven (10 * x) : ℚ) / 10

/-- `pat` occurs as a contiguous substring starting at some position of `l`. -/
def infixAt (pat : List Char) : List Char → Bool
  | [] => pat.isEmpty
  | c :: t => pat.isPrefixOf (c :: t) || infixAt pat t

/-- `pat` occurs as a contiguous substring of `s` (Python `pat in s`). -/
def containsSub (s pat : String) : Bool :=
  infixAt pat.toList s.toList

/-- Python `str.lower` for the ASCII inputs handled here. -/
def pyLower (s : String) : String :=
  String.mk (s.toList.map Char.toLower)

/-- One step bound by `fuel` of Python `str.replace`: at each position, a
(nonempty) occurrence of `pat` is replaced by `rep` and scanning resumes
after it; `fuel` is at least the list length, so it never runs out. -/
def replaceAux (pat rep : List Char) : Nat → List Char → List Char
  | _, [] => []
  | 0, l => l
  | Nat.succ fuel, c :: t =>
    if ¬ pat.isEmpty ∧ pat.isPrefixOf (c :: t) then
      rep ++ replaceAux pat rep fuel ((c :: t).drop pat.length)
    else c :: replaceAux pat rep fuel t

/-- Python `s.replace(pat, rep)` for nonempty `pat` (every pattern the
source replaces is nonempty). -/
def pyReplace (s pat rep : String) : String :=
  String.mk (replaceAux pat.toList rep.toList s.toList.length s.toList)

/-- Python `s.split(sep)` for a one-character separator. -/
def splitOnChar (sep : Char) : List Char → List (List Char)
  | [] => [[]]
  | c :: t =>
    match splitOnChar sep t with
    | [] => if c = sep then [[], []] else [[c]]
    | h :: r => if c = sep then [] :: h :: r else (c :: h) :: r

/-- Python `str.strip()`: surrounding whitespace removed. -/
def pyStrip (s : String) : List Char :=
  ((s.toList.dropWhile Char.isWhitespace).reverse.dropWhile Char.isWhitespace).reverse

/-- A flagged pair of similar reviews, as built by
`TextSimilarityRule.analyze` (ids of the two reviews, the similarity value,
the 150-character text previews and the reviewer display names). -/
structure SimilarPair where
  review1_id : Nat
  review2_id : Nat
  similarity : Nat
  text1 : String
  text2 : String
  reviewer1 : String
  reviewer2 : String
deriving DecidableEq, Repr

/-- A flagged timing cluster, as built by `TimingAnalysisRule.analyze`
(the ISO-formatted minute timestamp, the bucket size, the review ids and
the reviewer display names in the bucket). -/
structure TimingCluster where
  timestamp : String
  count : Nat
  review_ids : List Nat
  reviewers : List String
deriving DecidableEq, Repr

/-- One evidence item of a rule outcome: either a similar-text pair or a
timing cluster (the Python code stores plain dicts; the in-process contract
is this tagged union). -/
inductive Evidence where
  | pair (p : SimilarPair)
  | cluster (c : TimingCluster)
deriving DecidableEq, Repr

/-- The outcome of one fraud rule: the dict
`\x7b'score', 'flagged_items', 'reasoning'\x7d` returned by every rule's
`analyze` and consumed by `FraudScorer.calculate_score`. -/
structure RuleResult where
  score : ℚ
  flagged_items : List Evidence
  reasoning : String
deriving DecidableEq, Repr

/-- One entry of the scorer's `breakdown` dict:
`\x7b'score', 'weight', 'contribution', 'reasoning'\x7d`. -/
structure BreakdownEntry where
  score : ℚ
  weight : ℚ
  contribution : ℚ
  reasoning : String
deriving DecidableEq, Repr

/-- The dict returned by `FraudScorer.calculate_score`. -/
structure ScoreOutput where
  overall_score : ℚ
  risk_level : String
  breakdown : List (String × BreakdownEntry)
  reasoning : List String
deriving DecidableEq, Repr

/-- Stable insertion of `x` into a list sorted descending by `key`:
`x` goes after every element with a key `≥ key x`. -/
def insertDescBy (key : α → ℚ) (x : α) : List α → List α
  | [] => [x]
  | y :: ys => if key y < key x then x :: y :: ys else y :: insertDescBy key x ys

/-- Python `sorted(l, key=key, reverse=True)`: stable descending sort. -/
def pySortedDescBy (key : α → ℚ) (l : List α) : List α :=
  l.foldl (fun acc x => insertDescBy key x acc) []

/-- `FraudScorer.WEIGHTS` (scoring.py): the fixed rule weights, 0 for any
rule not in the table (`WEIGHTS.get(rule_name, 0)`). -/
def FraudScorer.WEIGHTS (rule_name : String) : ℚ :=
  if rule_name = "TextSimilarityRule" then 6/10
  else if rule_name = "TimingAnalysisRule" then 4/10
  else 0

/-- `FraudScorer._get_risk_level` (scoring.py): the `if score >= 75 … ` chain. -/
def FraudScorer.get_risk_level (score : ℚ) : String :=
  if 75 ≤ score then "HIGH"
  else if 50 ≤ score then "MEDIUM"
  else if 25 ≤ score then "LOW"
  else "MINIMAL"

/-- `FraudScorer.calculate_score` (scoring.py): per-rule breakdown with
rounded score and contribution, weighted sum of raw `score * weight`,
reasoning list of rules with rounded score above 10 sorted by descending
contribution (with the substring `Rule` stripped from the display name),
overall score rounded to one decimal, and the risk level of that rounded
overall score. -/
def FraudScorer.calculate_score (rule_results : List (String × RuleResult)) : ScoreOutput :=
  let breakdown : List (String × BreakdownEntry) :=
    rule_results.map (fun p =>
      (p.1, { score := pyRound1 p.2.score
              weight := FraudScorer.WEIGHTS p.1
              contribution := pyRound1 (p.2.score * FraudScorer.WEIGHTS p.1)
              reasoning := p.2.reasoning }))
  let weighted_sum : ℚ :=
    (rule_results.map (fun p => p.2.score * FraudScorer.WEIGHTS p.1)).sum
  let sorted_rules := pySortedDescBy (fun e => e.2.contribution) breakdown
  let reasoning_list :=
    sorted_rules.filterMap (fun e =>
      if 10 < e.2.score then
        some ((pyReplace e.1 "Rule" "") ++ ": " ++ e.2.reasoning)
      else none)
  let reasoning :=
    if reasoning_list = [] then ["No significant fraud indicators detected"]
    else reasoning_list
  let overall_score := pyRound1 weighted_sum
  { overall_score := overall_score
    risk_level := FraudScorer.get_risk_level overall_score
    breakdown := breakdown
    reasoning := reasoning }

/-- A calendar timestamp as handled by `datetime` values in the timing rule
(year, month, day, hour, minute, second, microsecond). -/
structure PyDateTime where
  year : Nat
  month : Nat
  day : Nat
  hour : Nat
  minute : Nat
  second : Nat
  microsecond : Nat
deriving DecidableEq, Repr

/-- `timestamp.replace(second=0, microsecond=0)`: truncation to the minute. -/
def truncateToMinute (t : PyDateTime) : PyDateTime :=
  { t with second := 0, microsecond := 0 }

/-- Left-pad a decimal rendering to two digits (for `isoformat`). -/
def pad2 (n : Nat) : String :=
  if n < 10 then "0" ++ toString n else toString n

/-- `datetime.isoformat()` for whole-second values:
`YYYY-MM-DDTHH:MM:SS` (Python omits the microsecond part when it is 0;
values reaching this renderer are minute-truncated, so microsecond = 0). -/
def PyDateTime.isoformat (t : PyDateTime) : String :=
  toString t.year ++ "-" ++ pad2 t.month ++ "-" ++ pad2 t.day ++ "T" ++
    pad2 t.hour ++ ":" ++ pad2 t.minute ++ ":" ++ pad2 t.second

/-- Take a run of decimal digits of exactly length `n` from the front. -/
def takeDigits (n : Nat) (l : List Char) : Option (Nat × List Char) :=
  let ds := l.take n
  if ds.length = n ∧ ds.all Char.isDigit then
    some (ds.foldl (fun a c => 10 * a + (c.toNat - '0'.toNat)) 0, l.drop n)
  else none

/-- Model of `datetime.fromisoformat` for the basic forms
`YYYY-MM-DD`, `YYYY-MM-DD HH:MM`, `YYYY-MM-DDTHH:MM` and
`YYYY-MM-DD[T ]HH:MM:SS`, with the range validation the library performs;
any other input is a parse failure (`ValueError`), which the timing rule
turns into skipping the review. -/
def fromisoformat (s : String) : Option PyDateTime :=
  match takeDigits 4 s.toList with
  | none => none
  | some (y, r1) =>
    match r1 with
    | '-' :: r2 =>
      match takeDigits 2 r2 with
      | none => none
      | some (mo, r3) =>
        match r3 with
        | '-' :: r4 =>
          match takeDigits 2 r4 with
          | none => none
          | some (d, r5) =>
            if ¬ (1 ≤ mo ∧ mo ≤ 12 ∧ 1 ≤ d ∧ d ≤ 31) then none
            else
              match r5 with
              | [] => some ⟨y, mo, d, 0, 0, 0, 0⟩
              | sep :: r6 =>
                if sep ≠ 'T' ∧ sep ≠ ' ' then none
                else
                  match takeDigits 2 r6 with
                  | none => none
                  | some (h, r7) =>
                    match r7 with
                    | ':' :: r8 =>
                      match takeDigits 2 r8 with
                      | none => none
                      | some (mi, r9) =>
                        if ¬ (h ≤ 23 ∧ mi ≤ 59) then none
                        else
                          match r9 with
                          | [] => some ⟨y, mo, d, h, mi, 0, 0⟩
                          | ':' :: r10 =>
                            match takeDigits 2 r10 with
                            | none => none
                            | some (sec, r11) =>
                              if sec ≤ 59 ∧ r11 = [] then
                                some ⟨y, mo, d, h, mi, sec, 0⟩
                              else none
                          | _ => none
                    | _ => none
        | _ => none
    | _ => none

/-- The dynamically-typed `review_date` value a review row can carry:
a `datetime` object, a string, or anything else (including a missing key /
`None`). -/
inductive RDate where
  | dtVal (t : PyDateTime)
  | strVal (s : String)
  | otherVal
deriving DecidableEq, Repr

/-- The date-coercion step of `TimingAnalysisRule.analyze`: a string is
parsed with `fromisoformat` (unparseable strings are skipped via the bare
`except: continue`), a `datetime` is kept, anything else is skipped; the
surviving value is truncated to the minute and used as the bucket key. -/
def reviewDateKey (d : RDate) : Option PyDateTime :=
  match d with
  | RDate.dtVal t => some (truncateToMinute t)
  | RDate.strVal s => (fromisoformat s).map truncateToMinute
  | RDate.otherVal => none

/-- One review row as returned by `get_reviews_by_business` (models.py):
the reviews table columns joined with the reviewer's name and total count. -/
structure Review where
  id : Nat
  business_id : Nat
  reviewer_id : Nat
  review_text : String
  rating : Nat
  review_date : RDate
  language : Option String
  reviewer_name : String
  reviewer_total_reviews : Option Nat
deriving DecidableEq, Repr

/-- One business row as stored in the businesses table and returned by
`get_business_by_url` (models.py); `last_analyzed` is NULL until
`update_business_analyzed_time` writes `CURRENT_TIMESTAMP`. -/
structure Business where
  id : Nat
  url : String
  name : String
  address : Option String
  category : Option String
  total_reviews : Option Nat
  average_rating : Option ℚ
  scraped_at : Option String
  last_analyzed : Option String
deriving DecidableEq, Repr

/-- `itertools.combinations(l, 2)` in iteration order. -/
def pairCombos : List α → List (α × α)
  | [] => []
  | x :: xs => xs.map (fun y => (x, y)) ++ pairCombos xs

/-- `TextSimilarityRule.analyze` (rules/text_similarity.py), with the
`fuzzywuzzy.fuzz.ratio` similarity function (an external library) passed in
as `ratio` and the constructor's `threshold` as a parameter (the default is
`TEXT_SIMILARITY_THRESHOLD = 85` from config.py).  Pairs with the same
reviewer or with either text under 20 characters are skipped; pairs at or
above the threshold are flagged; the score is the fraction of distinct
flagged review ids over all reviews, times 100, capped at 100. -/
def TextSimilarityRule.analyze (ratio : String → String → Nat) (threshold : Nat)
    (reviews : List Review) (_business : Business) : RuleResult :=
  if reviews.length < 2 then
    { score := 0, flagged_items := [],
      reasoning := "Insufficient reviews for comparison" }
  else
    let similar_pairs : List SimilarPair :=
      (pairCombos reviews).filterMap (fun rr =>
        if rr.1.reviewer_id = rr.2.reviewer_id then none
        else
          let text1 := rr.1.review_text
          let text2 := rr.2.review_text
          if text1.length < 20 ∨ text2.length < 20 then none
          else
            let similarity := ratio text1 text2
            if threshold ≤ similarity then
              some { review1_id := rr.1.id, review2_id := rr.2.id
                     similarity := similarity
                     text1 := String.mk (text1.toList.take 150)
                     text2 := String.mk (text2.toList.take 150)
                     reviewer1 := rr.1.reviewer_name
                     reviewer2 := rr.2.reviewer_name }
            else none)
    let unique_flagged_count :=
      ((similar_pairs.flatMap (fun p => [p.review1_id, p.review2_id])).dedup).length
    let score : ℚ :=
      if reviews = [] then 0
      else ((unique_flagged_count : ℚ) / (reviews.length : ℚ)) * 100
    let reasoning :=
      if similar_pairs.length = 0 then "No duplicate or similar reviews detected"
      else "Found " ++ toString similar_pairs.length ++
        " pairs of highly similar reviews (>" ++ toString threshold ++ "% match)"
    { score := min score 100
      flagged_items := (similar_pairs.take 10).map Evidence.pair
      reasoning := reasoning }

/-- Insertion into the `defaultdict(list)` bucket map of the timing rule:
append to the existing key's list, else add a new key at the end
(Python dicts preserve first-insertion key order). -/
def bucketInsert (k : PyDateTime) (r : Review) :
    List (PyDateTime × List Review) → List (PyDateTime × List Review)
  | [] => [(k, [r])]
  | (k', rs) :: t =>
    if k' = k then (k', rs ++ [r]) :: t else (k', rs) :: bucketInsert k r t

/-- The minute-bucket map `timestamp_buckets` of `TimingAnalysisRule.analyze`:
reviews whose date value survives coercion are appended to the bucket of
their minute-truncated timestamp; the rest are skipped. -/
def timingBuckets (reviews : List Review) : List (PyDateTime × List Review) :=
  reviews.foldl (fun bs r =>
    match reviewDateKey r.review_date with
    | none => bs
    | some k => bucketInsert k r bs) []

/-- First maximum of a cluster list by `count` (Python `max(clusters, key=…)`
returns the first maximal element). -/
def pyMaxByCount (c : TimingCluster) (cs : List TimingCluster) : TimingCluster :=
  cs.foldl (fun best x => if best.count < x.count then x else best) c

/-- `TimingAnalysisRule.analyze` (rules/timing_analysis.py), with the
constructor's `min_cluster_size` as a parameter (the default is 2).
Buckets reviews by minute-truncated timestamp, flags buckets of at least
`min_cluster_size` reviews, and scores the fraction of reviews inside
flagged buckets over all reviews, times 100, capped at 100; flagged
clusters are reported sorted by descending size, top 10. -/
def TimingAnalysisRule.analyze (min_cluster_size : Nat)
    (reviews : List Review) (_business : Business) : RuleResult :=
  if reviews.length < 2 then
    { score := 0, flagged_items := [],
      reasoning := "Insufficient reviews for timing analysis" }
  else
    let buckets := timingBuckets reviews
    let clusters : List TimingCluster :=
      buckets.filterMap (fun b =>
        if min_cluster_size ≤ b.2.length then
          some { timestamp := b.1.isoformat, count := b.2.length
                 review_ids := b.2.map (·.id)
                 reviewers := b.2.map (·.reviewer_name) }
        else none)
    let reviews_in_clusters : Nat := (clusters.map (·.count)).sum
    let score : ℚ :=
      if reviews = [] then 0
      else ((reviews_in_clusters : ℚ) / (reviews.length : ℚ)) * 100
    let reasoning :=
      match clusters with
      | [] => "No suspicious timing patterns detected"
      | c :: cs =>
        let max_cluster := pyMaxByCount c cs
        "Found " ++ toString clusters.length ++
          " timing clusters. Largest cluster: " ++ toString max_cluster.count ++
          " reviews posted at " ++ max_cluster.timestamp
    { score := min score 100
      flagged_items :=
        ((pySortedDescBy (fun c => (c.count : ℚ)) clusters).take 10).map Evidence.cluster
      reasoning := reasoning }

/-- One fraud rule as seen by the detector loop: its `get_name()` and its
`analyze`, which either returns a result dict or raises (modelled as
`Except.error` carrying `str(e)`). -/
structure RuleImpl where
  name : String
  analyze : List Review → Business → Except String RuleResult

/-- The body of the detector's per-rule `try/except`: a raising rule
contributes score 0, no flagged items and an `Error: …` rationale. -/
def runRule (rule : RuleImpl) (reviews : List Review) (business : Business) : RuleResult :=
  match rule.analyze reviews business with
  | Except.ok res => res
  | Except.error e => { score := 0, flagged_items := [], reasoning := "Error: " ++ e }

/-- `FraudDetector.analyze_business` (detector.py), generic over the
`self.rules` list: every rule produces one entry `(rule_name, outcome)` in
iteration order, with failures isolated per rule by `runRule`. -/
def FraudDetector.analyze_business (rules : List RuleImpl)
    (reviews : List Review) (business : Business) : List (String × RuleResult) :=
  rules.map (fun r => (r.name, runRule r reviews business))

/-- The concrete `self.rules` of `FraudDetector.__init__`:
`TextSimilarityRule()` (threshold 85) and `TimingAnalysisRule()`
(min cluster size 2), neither of which raises in this typed model. -/
def FraudDetector.default_rules (ratio : String → String → Nat) : List RuleImpl :=
  [ { name := "TextSimilarityRule",
      analyze := fun rs b => Except.ok (TextSimilarityRule.analyze ratio 85 rs b) },
    { name := "TimingAnalysisRule",
      analyze := fun rs b => Except.ok (TimingAnalysisRule.analyze 2 rs b) } ]

/-- Python `int(s)`: optional surrounding whitespace, optional sign, then a
nonempty digit run; anything else raises `ValueError` (modelled as `none`). -/
def pyIntOfString (s : String) : Option ℤ :=
  let cs := pyStrip s
  let core : Option (Bool × List Char) :=
    match cs with
    | '-' :: t => some (true, t)
    | '+' :: t => some (false, t)
    | t => some (false, t)
  match core with
  | some (neg, ds) =>
    if ds.isEmpty ∨ ¬ ds.all Char.isDigit then none
    else
      let v : ℤ := ds.foldl (fun a c => 10 * a + ((c.toNat - '0'.toNat : Nat) : ℤ)) 0
      some (if neg then -v else v)
  | none => none

/-- The seven unit alternatives of the relative-time pattern, in the
pattern's alternation order. -/
def relTimeUnits : List String :=
  ["second", "minute", "hour", "day", "week", "month", "year"]

/-- First unit alternative that literally starts at `cs`. -/
def firstUnitAt (cs : List Char) : Option String :=
  relTimeUnits.find? (fun u => u.toList.isPrefixOf cs)

/-- Backtracking over the `s+` run of the mis-escaped pattern
`r'(\\d+)\\s+(second|…|year)'`: in a Python raw string `\\s` is a literal
backslash followed by the letter `s`, so the engine consumes a greedy run of
`k` letter-`s` characters (trying `k` from the maximum down to 1) and then
requires a unit word. -/
def pickUnitSplit (r2 : List Char) : Nat → Option String
  | 0 => none
  | Nat.succ k =>
    match firstUnitAt (r2.drop (k + 1)) with
    | some u => some u
    | none => pickUnitSplit r2 k

/-- Match of the mis-escaped relative-time pattern at the head of `cs`:
a literal backslash, a nonempty run of `d` characters (this whole piece is
capture group 1), a literal backslash, a nonempty run of `s` characters and
one of the unit words (capture group 2). -/
def matchRelPatternAt (cs : List Char) : Option (String × String) :=
  match cs with
  | '\\' :: r1 =>
    let ds := r1.takeWhile (· = 'd')
    if ds.isEmpty then none
    else
      match r1.drop ds.length with
      | '\\' :: r2 =>
        let m := (r2.takeWhile (· = 's')).length
        if m = 0 then none
        else (pickUnitSplit r2 m).map (fun u => (String.mk ('\\' :: ds), u))
      | _ => none
  | _ => none

/-- `re.search` for the mis-escaped relative-time pattern: leftmost match. -/
def searchRelPattern : List Char → Option (String × String)
  | [] => none
  | c :: t =>
    match matchRelPatternAt (c :: t) with
    | some r => some r
    | none => searchRelPattern t

/-- `GoogleMapsScraper._parse_relative_time` (playwright_scraper.py).
Instants are modelled as rational timestamps in seconds; `now` is the
capture instant `datetime.now()`.  The source lower-cases the text, runs
`re.search(r'(\\d+)\\s+(second|minute|hour|day|week|month|year)', text)`
— whose raw-string pattern contains literal backslashes — and returns `now`
when there is no match; on a match it converts group 1 with `int` (which
raises `ValueError` on the backslash-containing group, modelled as
`Except.error`) and otherwise subtracts the unit duration, with
month = 30 days and year = 365 days. -/
def GoogleMapsScraper.parse_relative_time (text : String) (now : ℚ) : Except String ℚ :=
  let lowered := pyLower text
  match searchRelPattern lowered.toList with
  | none => Except.ok now
  | some (g1, unit) =>
    match pyIntOfString g1 with
    | none => Except.error "invalid literal for int() with base 10"
    | some amount =>
      if containsSub unit "second" then Except.ok (now - (amount : ℚ))
      else if containsSub unit "minute" then Except.ok (now - (amount : ℚ) * 60)
      else if containsSub unit "hour" then Except.ok (now - (amount : ℚ) * 3600)
      else if containsSub unit "day" then Except.ok (now - (amount : ℚ) * 86400)
      else if containsSub unit "week" then Except.ok (now - (amount : ℚ) * 604800)
      else if containsSub unit "month" then Except.ok (now - (amount : ℚ) * 30 * 86400)
      else if containsSub unit "year" then Except.ok (now - (amount : ℚ) * 365 * 86400)
      else Except.ok now

/-- Python string `<=`: lexicographic comparison by code point, a proper
prefix comparing below the longer string. -/
def pyStrLe : List Char → List Char → Bool
  | [], _ => true
  | _ :: _, [] => false
  | a :: as, b :: bs => if a < b then true else if b < a then false else pyStrLe as bs

/-- `GoogleMapsScraper._detect_language` (playwright_scraper.py).  Empty
text returns `"en"`.  The source counts characters `c` with
`'\\u0590' <= c <= '\\u05FF'` — the bounds are written with doubled
backslashes, so each is the literal six-character string backslash-u-0-5-9-0
(resp. …-5-F-F), not a Hebrew-block code point — and answers `"he"` when
that count exceeds 30% of the characters. -/
def GoogleMapsScraper.detect_language (text : String) : String :=
  if text = "" then "en"
  else
    let chars := text.toList
    let hebrew_chars := (chars.filter (fun c =>
      pyStrLe "\\u0590".toList [c] && pyStrLe [c] "\\u05FF".toList)).length
    let total_chars := chars.length
    if 0 < total_chars ∧ (3/10 : ℚ) < (hebrew_chars : ℚ) / (total_chars : ℚ)
    then "he" else "en"

/-- A character of the Hebrew Unicode block U+0590–U+05FF (the predicate the
specification describes for language classification). -/
def hebrewBlockChar (c : Char) : Bool :=
  decide (0x590 ≤ c.toNat ∧ c.toNat ≤ 0x5FF)

/-- The outcome of one `query_selector`/interaction step during per-review
extraction: an element (with payload) was found, no element was found
(`None`), or the step raised an exception. -/
inductive ElemQuery (α : Type) where
  | found (a : α)
  | absent
  | raises
deriving DecidableEq, Repr

/-- One rendered review element, described by the outcome of each
sub-extraction step of `GoogleMapsScraper._extract_review_data`:
the reviewer-name node text, the rating node's `aria-label`, the
"show more" button, the review-text node, the relative-time node, the
reviewer profile button, the profile popup's review-count text and the
popup close button. -/
structure ReviewElement where
  nameElem : ElemQuery String
  ratingElem : ElemQuery (Option String)
  moreButton : ElemQuery Unit
  textElem : ElemQuery String
  timeElem : ElemQuery String
  reviewerButton : ElemQuery Unit
  profileElem : ElemQuery (Option String)
  closeButton : ElemQuery Unit
deriving DecidableEq, Repr

/-- Match of the mis-escaped rating pattern `r'(\\d+) star'` at the head of
`cs`: a literal backslash, a nonempty run of `d` characters (capture group
1), then the text " star". -/
def matchRatingAt (cs : List Char) : Option String :=
  match cs with
  | '\\' :: r1 =>
    let ds := r1.takeWhile (· = 'd')
    if ds.isEmpty then none
    else if (" star".toList).isPrefixOf (r1.drop ds.length) then
      some (String.mk ('\\' :: ds))
    else none
  | _ => none

/-- `re.search` for the mis-escaped rating pattern: leftmost match. -/
def searchRating : List Char → Option String
  | [] => none
  | c :: t =>
    match matchRatingAt (c :: t) with
    | some r => some r
    | none => searchRating t

/-- Case-insensitive literal prefix test (for the `re.IGNORECASE` pieces of
the reviewer-count pattern). -/
def ciPrefix : List Char → List Char → Bool
  | [], _ => true
  | _ :: _, [] => false
  | p :: ps, c :: cs => p.toLower = c.toLower && ciPrefix ps cs

/-- Backtracking over capture group 1 of the mis-escaped reviewer-count
pattern `r'([\\d,]+)\\s+review'` (IGNORECASE): the character class holds a
literal backslash, the letter `d` and a comma; after a greedy run of `k`
class characters (trying `k` downward) the engine requires a literal
backslash, a nonempty run of letter-`s` characters and the word "review". -/
def tryRevCntSplit (cs : List Char) : Nat → Option String
  | 0 => none
  | Nat.succ k =>
    match cs.drop (k + 1) with
    | '\\' :: r2 =>
      let m := (r2.takeWhile (fun c => c.toLower = 's')).length
      if m ≠ 0 ∧ ciPrefix "review".toList (r2.drop m) then
        some (String.mk (cs.take (k + 1)))
      else tryRevCntSplit cs k
    | _ => tryRevCntSplit cs k

/-- Match of the mis-escaped reviewer-count pattern at the head of `cs`. -/
def matchRevCntAt (cs : List Char) : Option String :=
  let isCls := fun (c : Char) => c = '\\' || c.toLower = 'd' || c = ','
  let run := cs.takeWhile isCls
  if run.isEmpty then none else tryRevCntSplit cs run.length

/-- `re.search` for the mis-escaped reviewer-count pattern: leftmost match. -/
def searchRevCnt : List Char → Option String
  | [] => none
  | c :: t =>
    match matchRevCntAt (c :: t) with
    | some r => some r
    | none => searchRevCnt t

/-- The review dict assembled by `_extract_review_data`; a `none` field
models a key the source never assigned (Python leaves the key out of the
dict, so a later `review['rating']` raises `KeyError`). -/
structure ExtractedReview where
  reviewer_name : Option String
  rating : Option Nat
  text : Option String
  timestamp : Option ℚ
  reviewer_total_reviews : Option Nat
  language : Option String
deriving DecidableEq, Repr

/-- `GoogleMapsScraper._extract_review_data` (playwright_scraper.py), one
sub-extraction per field, each wrapped in its own `try/except`:

* reviewer name: the name node's text when found; on exception `"Unknown"`;
  when the node is absent the key is never assigned;
* rating: when the rating node and its `aria-label` exist, the mis-escaped
  pattern `r'(\\d+) star'` is searched — a match makes `int` raise on the
  backslash-containing group, caught by the `except` that assigns 5; no
  match leaves the key unassigned; an exception assigns 5;
* text: the text node's content, `''` when absent or on exception;
* timestamp: `_parse_relative_time` of the time node's text (its
  `ValueError` is caught by this `except`, assigning the capture instant);
  an absent time node leaves the key unassigned; an exception assigns the
  capture instant;
* reviewer total reviews: via the profile popup, with every failure path
  (backslash-free count text never matches the mis-escaped pattern,
  `int` failure, absent elements, exceptions) resolving to 1;
* language: `_detect_language` of the text field.

The outer `try` returns `None` on an uncaught exception; every
sub-extraction catches its own, so this model always returns a dict. -/
def GoogleMapsScraper.extract_review_data (e : ReviewElement) (now : ℚ) :
    Option ExtractedReview :=
  let reviewer_name : Option String :=
    match e.nameElem with
    | ElemQuery.found s => some s
    | ElemQuery.absent => none
    | ElemQuery.raises => some "Unknown"
  let rating : Option Nat :=
    match e.ratingElem with
    | ElemQuery.found (some aria) =>
      match searchRating aria.toList with
      | some g =>
        match pyIntOfString g with
        | some n => some n.toNat
        | none => some 5
      | none => none
    | ElemQuery.found none => none
    | ElemQuery.absent => none
    | ElemQuery.raises => some 5
  let text : Option String :=
    match e.moreButton with
    | ElemQuery.raises => some ""
    | _ =>
      match e.textElem with
      | ElemQuery.found s => some s
      | ElemQuery.absent => some ""
      | ElemQuery.raises => some ""
  let timestamp : Option ℚ :=
    match e.timeElem with
    | ElemQuery.found s =>
      match GoogleMapsScraper.parse_relative_time s now with
      | Except.ok t => some t
      | Except.error _ => some now
    | ElemQuery.absent => none
    | ElemQuery.raises => some now
  let reviewer_total_reviews : Option Nat :=
    match e.reviewerButton with
    | ElemQuery.found _ =>
      match e.profileElem with
      | ElemQuery.found (some profile) =>
        (match searchRevCnt profile.toList with
         | some g =>
           (match pyIntOfString (pyReplace g "," "") with
            | some n =>
              match e.closeButton with
              | ElemQuery.raises => some 1
              | _ => some n.toNat
            | none => some 1)
         | none => some 1)
      | ElemQuery.found none => some 1
      | ElemQuery.absent => some 1
      | ElemQuery.raises => some 1
    | ElemQuery.absent => some 1
    | ElemQuery.raises => some 1
  some { reviewer_name := reviewer_name
         rating := rating
         text := text
         timestamp := timestamp
         reviewer_total_reviews := reviewer_total_reviews
         language := some (GoogleMapsScraper.detect_language (text.getD "")) }

/-- The suffix of `l` right after the first occurrence of `pat`, if any. -/
def suffixAfterFirst (pat : List Char) : List Char → Option (List Char)
  | [] => if pat.isEmpty then some [] else none
  | c :: t =>
    if pat.isPrefixOf (c :: t) then some ((c :: t).drop pat.length)
    else suffixAfterFirst pat t

/-- `is_google_maps_url` (url_parser.py): case-insensitive search for one of
the five domain/path patterns; in `r'google\.com/search.*maps'` the dot is
escaped, so it is the substring `google.com/search` followed anywhere later
by `maps`. -/
def is_google_maps_url (url : String) : Bool :=
  let u := pyLower url
  containsSub u "google.com/maps" ||
  containsSub u "maps.google.com" ||
  containsSub u "goo.gl" ||
  containsSub u "maps.app.goo.gl" ||
  (match suffixAfterFirst "google.com/search".toList u.toList with
   | some suf => infixAt "maps".toList suf
   | none => false)

/-- Characters taken until one of `stops` is hit. -/
def takeUntil (stops : List Char) (l : List Char) : List Char :=
  l.takeWhile (fun c => ¬ stops.contains c)

/-- The `path` component of `urllib.parse.urlparse` for the URL shapes the
parser receives: after `scheme://` and the host, up to `?` or `#`; a URL
without `://` has an empty netloc and is all path (up to `?`/`#`). -/
def urlPath (url : String) : String :=
  let cs := url.toList
  match suffixAfterFirst "://".toList cs with
  | some rest =>
    let afterHost := rest.dropWhile (fun c => c ≠ '/' && c ≠ '?' && c ≠ '#')
    match afterHost with
    | '/' :: _ => String.mk (takeUntil ['?', '#'] afterHost)
    | _ => ""
  | none => String.mk (takeUntil ['?', '#'] cs)

/-- The `query` component of `urllib.parse.urlparse`: between the first `?`
and a following `#`. -/
def urlQuery (url : String) : String :=
  match suffixAfterFirst ['?'] url.toList with
  | some rest => String.mk (takeUntil ['#'] rest)
  | none => ""

/-- `re.search(r'/place/([^/@]+)', path)`: leftmost position where
`/place/` is followed by at least one character other than `/` and `@`;
the capture is the maximal such run. -/
def findPlaceName : List Char → Option (List Char)
  | [] => none
  | c :: t =>
    if "/place/".toList.isPrefixOf (c :: t) then
      let nm := ((c :: t).drop 7).takeWhile (fun ch => ch ≠ '/' && ch ≠ '@')
      if nm.isEmpty then findPlaceName t else some nm
    else findPlaceName t

/-- Hexadecimal digit test. -/
def isHexDigitChar (c : Char) : Bool :=
  c.isDigit || ('a' ≤ c.toLower && c.toLower ≤ 'f')

/-- `urllib.parse.unquote` restricted to single-byte `%XX` escapes: a `%`
followed by two hex digits decodes to that character, anything else is kept
verbatim. -/
def pyUnquote : List Char → List Char
  | [] => []
  | '%' :: h1 :: h2 :: t =>
    match isHexDigitChar h1, isHexDigitChar h2 with
    | true, true =>
      Char.ofNat (16 * (if h1.isDigit then h1.toNat - '0'.toNat
                        else h1.toLower.toNat - 'a'.toNat + 10) +
                  (if h2.isDigit then h2.toNat - '0'.toNat
                   else h2.toLower.toNat - 'a'.toNat + 10)) :: pyUnquote t
    | _, _ => '%' :: pyUnquote (h1 :: h2 :: t)
  | c :: t => c :: pyUnquote t

/-- One decimal-digit run, maximal and nonempty, from the front. -/
def digitRun (l : List Char) : Option (Nat × List Char) :=
  let ds := l.takeWhile Char.isDigit
  if ds.isEmpty then none
  else some (ds.foldl (fun a c => 10 * a + (c.toNat - '0'.toNat)) 0, l.drop ds.length)

/-- One coordinate of the pattern `-?\d+\.\d+`: optional minus, digits,
dot, digits, as the rational Python's `float` call produces on the match. -/
def parseCoordNum (l : List Char) : Option (ℚ × List Char) :=
  let signSplit : Bool × List Char :=
    match l with
    | '-' :: t => (true, t)
    | t => (false, t)
  match digitRun signSplit.2 with
  | none => none
  | some (ip, r1) =>
    match r1 with
    | '.' :: r2 =>
      (match digitRun r2 with
       | none => none
       | some _ =>
         let fracDs := r2.takeWhile Char.isDigit
         let fv : ℚ := (fracDs.foldl (fun a c => 10 * a + (c.toNat - '0'.toNat)) 0 : Nat)
         let v : ℚ := (ip : ℚ) + fv / ((10 : ℚ) ^ fracDs.length)
         some (if signSplit.1 then -v else v, r2.drop fracDs.length))
    | _ => none

/-- `re.search(r'@(-?\d+\.\d+),(-?\d+\.\d+)', path)`: leftmost `@` from
which two comma-separated decimal coordinates parse. -/
def findCoords : List Char → Option (ℚ × ℚ)
  | [] => none
  | c :: t =>
    if c = '@' then
      match parseCoordNum t with
      | some (lat, rest) =>
        (match rest with
         | ',' :: r2 =>
           (match parseCoordNum r2 with
            | some (lng, _) => some (lat, lng)
            | none => findCoords t)
         | _ => findCoords t)
      | none => findCoords t
    else findCoords t

/-- Split a `key=value` chunk at its first `=`. -/
def splitKV : List Char → Option (List Char × List Char)
  | [] => none
  | '=' :: t => some ([], t)
  | c :: t => (splitKV t).map (fun p => (c :: p.1, p.2))

/-- `urllib.parse.parse_qs` as used here: chunks split on `&`, each split at
its first `=`; chunks without `=` or with an empty value are dropped
(`keep_blank_values` defaults to false); keys and values are URL-decoded
with `+` as space. -/
def parseQsPairs (q : String) : List (String × String) :=
  (splitOnChar '&' q.toList).filterMap (fun kv =>
    match splitKV kv with
    | some (k, v) =>
      if v.isEmpty then none
      else some (pyReplace (String.mk (pyUnquote k)) "+" " ",
                 pyReplace (String.mk (pyUnquote v)) "+" " ")
    | none => none)

/-- The dict returned by `parse_google_maps_url` (url_parser.py). -/
structure UrlParseResult where
  is_valid : Bool
  original_url : String
  final_url : String
  business_name : Option String
  place_id : Option String
  coordinates : Option (ℚ × ℚ)
deriving DecidableEq, Repr

/-- `parse_google_maps_url` (url_parser.py), with the HTTP redirect
follower passed in as `redirect` (`none` models `follow_redirect` raising).
Empty input and non-Google-Maps input return the invalid default; a
`goo.gl` URL is first redirected (failure returns the invalid default with
the original `final_url`); the business name comes from the `/place/`
segment URL-decoded with `+` as space, the coordinates from the
`@lat,lng` segment, the place id from the `ftid` else `cid` query
parameter; the result is valid exactly when a name or coordinates were
found. -/
def parse_google_maps_url (redirect : String → Option String) (url : String) :
    UrlParseResult :=
  let base : UrlParseResult :=
    { is_valid := false, original_url := url, final_url := url,
      business_name := none, place_id := none, coordinates := none }
  if url = "" then base
  else if ¬ is_google_maps_url url then base
  else
    let redirected : Option (String × String) :=
      if containsSub url "goo.gl" || containsSub url "maps.app.goo.gl" then
        match redirect url with
        | some fin => some (fin, fin)
        | none => none
      else some (url, url)
    match redirected with
    | none => base
    | some fu =>
      let path := urlPath fu.2
      let business_name := (findPlaceName path.toList).map (fun nm =>
        pyReplace (String.mk (pyUnquote nm)) "+" " ")
      let coordinates := findCoords path.toList
      let pairs := parseQsPairs (urlQuery fu.2)
      let place_id :=
        match (pairs.find? (fun p => p.1 = "ftid")).map (·.2) with
        | some v => some v
        | none => (pairs.find? (fun p => p.1 = "cid")).map (·.2)
      { is_valid := business_name.isSome || coordinates.isSome
        original_url := url
        final_url := fu.1
        business_name := business_name
        place_id := place_id
        coordinates := coordinates }

/-- `CACHE_DURATION_HOURS` (config.py): the configured freshness window. -/
def CACHE_DURATION_HOURS : ℚ := 24

/-- The pre-scrape cache check of the `analyze` route (app.py):
`if existing_business and existing_business.get('last_analyzed'):` serves
the stored report.  `cache_duration_hours` and `now` model the configured
`CACHE_DURATION_HOURS` and the request instant, both in scope for the
route but never read by this check. -/
def analyzeCacheGate (cache_duration_hours : ℚ) (now : ℚ)
    (existing_business : Option Business) : Bool :=
  match existing_business with
  | none => false
  | some b =>
    match b.last_analyzed with
    | none => false
    | some s => s ≠ ""

/-- C2: `calculate_score` returns the weight-weighted sum of rule scores
rounded to one decimal; the two enabled rules' weights sum to 1; with every
rule scoring 0 the overall score is 0, and with every rule scoring 100 and
weights summing to 1 the overall score is 100. -/
theorem C2_overall_score_weighted_sum :
    (∀ rule_results : List (String × RuleResult),
      (FraudScorer.calculate_score rule_results).overall_score =
        pyRound1 ((rule_results.map (fun p => p.2.score * FraudScorer.WEIGHTS p.1)).sum))
    ∧ FraudScorer.WEIGHTS "TextSimilarityRule" + FraudScorer.WEIGHTS "TimingAnalysisRule" = 1
    ∧ (∀ rule_results : List (String × RuleResult),
        (∀ p ∈ rule_results, p.2.score = 0) →
        (FraudScorer.calculate_score rule_results).overall_score = 0)
    ∧ (∀ rule_results : List (String × RuleResult),
        (∀ p ∈ rule_results, p.2.score = 100) →
        (rule_results.map (fun p => FraudScorer.WEIGHTS p.1)).sum = 1 →
        (FraudScorer.calculate_score rule_results).overall_score = 100) := by
  refine ⟨fun rule_results => rfl, by simp [FraudScorer.WEIGHTS]; norm_num, ?_, ?_⟩
  · intro rule_results h
    have hz : (rule_results.map (fun p => p.2.score * FraudScorer.WEIGHTS p.1)).sum = 0 := by
      apply List.sum_eq_zero
      intro x hx
      rcases List.mem_map.mp hx with ⟨p, hp, rfl⟩
      rw [h p hp, zero_mul]
    show pyRound1 _ = 0
    rw [hz]
    norm_num [pyRound1, pyRoundHalfEven]
  · intro rule_results h hw
    have hz : (rule_results.map (fun p => p.2.score * FraudScorer.WEIGHTS p.1)).sum = 100 := by
      have : rule_results.map (fun p => p.2.score * FraudScorer.WEIGHTS p.1) =
          rule_results.map (fun p => 100 * FraudScorer.WEIGHTS p.1) := by
        apply List.map_congr_left
        intro p hp
        rw [h p hp]
      rw [this, List.sum_map_mul_left, hw, mul_one]
    show pyRound1 _ = 100
    rw [hz]
    norm_num [pyRound1, pyRoundHalfEven]

/-- Witness for C2: the two enabled rules at score 0 give overall score 0,
and at score 100 (their weights summing to 1) give overall score 100. -/
theorem C2_overall_score_weighted_sum_witness :
    (FraudScorer.calculate_score
      [("TextSimilarityRule", ⟨0, [], "a"⟩), ("TimingAnalysisRule", ⟨0, [], "b"⟩)]).overall_score = 0
    ∧ (FraudScorer.calculate_score
      [("TextSimilarityRule", ⟨100, [], "a"⟩), ("TimingAnalysisRule", ⟨100, [], "b"⟩)]).overall_score = 100 :=
  ⟨C2_overall_score_weighted_sum.2.2.1 _
    (by intro p hp; simp only [List.mem_cons, List.not_mem_nil, or_false] at hp
        rcases hp with rfl | rfl <;> rfl),
   C2_overall_score_weighted_sum.2.2.2 _
    (by intro p hp; simp only [List.mem_cons, List.not_mem_nil, or_false] at hp
        rcases hp with rfl | rfl <;> rfl)
    (by simp [FraudScorer.WEIGHTS]; norm_num)⟩

/-- C3: the risk tier is computed on the rounded overall score with
inclusive lower bounds — HIGH for ≥ 75, MEDIUM on [50, 75), LOW on
[25, 50), MINIMAL below 25 — and in particular 75.0 ↦ HIGH,
74.9 ↦ MEDIUM, 49.9 ↦ LOW, 24.9 ↦ MINIMAL. -/
theorem C3_risk_tier_thresholds :
    (∀ s : ℚ,
      (75 ≤ s → FraudScorer.get_risk_level s = "HIGH")
      ∧ (50 ≤ s → s < 75 → FraudScorer.get_risk_level s = "MEDIUM")
      ∧ (25 ≤ s → s < 50 → FraudScorer.get_risk_level s = "LOW")
      ∧ (s < 25 → FraudScorer.get_risk_level s = "MINIMAL"))
    ∧ (∀ rule_results, (FraudScorer.calculate_score rule_results).risk_level =
        FraudScorer.get_risk_level (FraudScorer.calculate_score rule_results).overall_score)
    ∧ FraudScorer.get_risk_level 75 = "HIGH"
    ∧ FraudScorer.get_risk_level (749/10) = "MEDIUM"
    ∧ FraudScorer.get_risk_level (499/10) = "LOW"
    ∧ FraudScorer.get_risk_level (249/10) = "MINIMAL" := by
  refine ⟨?_, fun rule_results => rfl, by norm_num [FraudScorer.get_risk_level],
    by norm_num [FraudScorer.get_risk_level], by norm_num [FraudScorer.get_risk_level],
    by norm_num [FraudScorer.get_risk_level]⟩
  intro s
  unfold FraudScorer.get_risk_level
  refine ⟨fun h => ?_, fun h1 h2 => ?_, fun h1 h2 => ?_, fun h => ?_⟩ <;>
    split_ifs <;> first | rfl | linarith

/-- Witness for C3: one representative score per tier, through the
threshold implications of the theorem. -/
theorem C3_risk_tier_thresholds_witness :
    FraudScorer.get_risk_level 80 = "HIGH"
    ∧ FraudScorer.get_risk_level 60 = "MEDIUM"
    ∧ FraudScorer.get_risk_level 30 = "LOW"
    ∧ FraudScorer.get_risk_level 10 = "MINIMAL" :=
  ⟨(C3_risk_tier_thresholds.1 80).1 (by norm_num),
   (C3_risk_tier_thresholds.1 60).2.1 (by norm_num) (by norm_num),
   (C3_risk_tier_thresholds.1 30).2.2.1 (by norm_num) (by norm_num),
   (C3_risk_tier_thresholds.1 10).2.2.2 (by norm_num)⟩

/-- C4: both rules' scores always lie in [0, 100], and with fewer than two
reviews each rule returns exactly score 0, no flagged items and its
insufficient-data rationale. -/
theorem C4_rule_score_bounds :
    ∀ (ratio : String → String → Nat) (threshold min_cluster_size : Nat)
      (reviews : List Review) (business : Business),
      (0 ≤ (TextSimilarityRule.analyze ratio threshold reviews business).score
        ∧ (TextSimilarityRule.analyze ratio threshold reviews business).score ≤ 100)
      ∧ (0 ≤ (TimingAnalysisRule.analyze min_cluster_size reviews business).score
        ∧ (TimingAnalysisRule.analyze min_cluster_size reviews business).score ≤ 100)
      ∧ (reviews.length < 2 →
          TextSimilarityRule.analyze ratio threshold reviews business =
            { score := 0, flagged_items := [],
              reasoning := "Insufficient reviews for comparison" }
          ∧ TimingAnalysisRule.analyze min_cluster_size reviews business =
            { score := 0, flagged_items := [],
              reasoning := "Insufficient reviews for timing analysis" }) := by
  intro ratio threshold min_cluster_size reviews business
  refine ⟨?_, ?_, fun h =>
    ⟨by simp only [TextSimilarityRule.analyze, if_pos h],
     by simp only [TimingAnalysisRule.analyze, if_pos h]⟩⟩
  · unfold TextSimilarityRule.analyze
    split
    · norm_num
    · dsimp only
      constructor
      · apply le_min
        · split
          · norm_num
          · exact mul_nonneg (div_nonneg (Nat.cast_nonneg _) (Nat.cast_nonneg _)) (by norm_num)
        · norm_num
      · exact min_le_right _ _
  · unfold TimingAnalysisRule.analyze
    split
    · norm_num
    · dsimp only
      constructor
      · apply le_min
        · split
          · norm_num
          · exact mul_nonneg (div_nonneg (Nat.cast_nonneg _) (Nat.cast_nonneg _)) (by norm_num)
        · norm_num
      · exact min_le_right _ _

/-- A business row used for concrete instantiations. -/
def sampleBusiness : Business :=
  { id := 1, url := "https://www.google.com/maps/place/Coffee+Shop/@31.5,34.5,17z",
    name := "Coffee Shop", address := none, category := none,
    total_reviews := some 2, average_rating := some (45/10),
    scraped_at := some "2024-05-01 10:00:00",
    last_analyzed := none }

/-- A review row used for concrete instantiations. -/
def sampleReview1 : Review :=
  { id := 1, business_id := 1, reviewer_id := 11,
    review_text := "Great coffee and lovely staff",
    rating := 5, review_date := RDate.strVal "2024-01-01T10:00:30",
    language := some "en", reviewer_name := "Alice", reviewer_total_reviews := some 3 }

/-- Witness for C4: a single-review list hits the insufficient-data branch
of both rules, and a concrete two-review list has its text-similarity score
inside the bounds. -/
theorem C4_rule_score_bounds_witness :
    (TextSimilarityRule.analyze (fun _ _ => 100) 85 [sampleReview1] sampleBusiness =
      { score := 0, flagged_items := [],
        reasoning := "Insufficient reviews for comparison" }
    ∧ TimingAnalysisRule.analyze 2 [sampleReview1] sampleBusiness =
      { score := 0, flagged_items := [],
        reasoning := "Insufficient reviews for timing analysis" })
    ∧ 0 ≤ (TextSimilarityRule.analyze (fun _ _ => 100) 85 [sampleReview1] sampleBusiness).score :=
  ⟨(C4_rule_score_bounds (fun _ _ => 100) 85 2 [sampleReview1] sampleBusiness).2.2
      (by norm_num),
   (C4_rule_score_bounds (fun _ _ => 100) 85 2 [sampleReview1] sampleBusiness).1.1⟩

/-- C9: `analyze_business` produces exactly one outcome per enabled rule,
and a rule whose `analyze` raises contributes the entry with score 0, no
flagged items and an `Error: …` rationale, without aborting the others. -/
theorem C9_detector_isolates_rule_failures :
    ∀ (rules : List RuleImpl) (reviews : List Review) (business : Business),
      (FraudDetector.analyze_business rules reviews business).length = rules.length
      ∧ ∀ r ∈ rules, ∃ res,
          (r.name, res) ∈ FraudDetector.analyze_business rules reviews business
          ∧ ∀ e, r.analyze reviews business = Except.error e →
              res = { score := 0, flagged_items := [], reasoning := "Error: " ++ e } := by
  intro rules reviews business
  constructor
  · simp [FraudDetector.analyze_business]
  · intro r hr
    refine ⟨runRule r reviews business, ?_, ?_⟩
    · exact List.mem_map_of_mem (fun r => (r.name, runRule r reviews business)) hr
    · intro e he
      simp [runRule, he]

/-- A rule whose `analyze` always raises, for exercising the isolation
branch of the detector. -/
def crashingRule : RuleImpl :=
  { name := "CrashingRule", analyze := fun _ _ => Except.error "boom" }

/-- Witness for C9: running the detector over a list containing a raising
rule yields that rule's error outcome. -/
theorem C9_detector_isolates_rule_failures_witness :
    ∃ res, ("CrashingRule", res) ∈
        FraudDetector.analyze_business [crashingRule] [sampleReview1] sampleBusiness
      ∧ ∀ e, crashingRule.analyze [sampleReview1] sampleBusiness = Except.error e →
          res = { score := 0, flagged_items := [], reasoning := "Error: " ++ e } :=
  (C9_detector_isolates_rule_failures [crashingRule] [sampleReview1] sampleBusiness).2
    crashingRule (List.mem_singleton.mpr rfl)

/-- Inserting one review into the bucket map grows the total bucketed-review
count by exactly one. -/
lemma bucketInsert_size_sum (k : PyDateTime) (r : Review) :
    ∀ bs : List (PyDateTime × List Review),
      ((bucketInsert k r bs).map (fun b => b.2.length)).sum =
        ((bs.map (fun b => b.2.length)).sum) + 1 := by
  intro bs
  induction bs with
  | nil => simp [bucketInsert]
  | cons hd tl ih =>
    rcases hd with ⟨k', rs⟩
    by_cases h : k' = k
    · simp [bucketInsert, h]
      omega
    · simp [bucketInsert, h, ih]
      omega

/-- The bucket map of the timing rule holds exactly the reviews whose date
value survives coercion. -/
lemma timingBuckets_size_sum (reviews : List Review) :
    ((timingBuckets reviews).map (fun b => b.2.length)).sum =
      (reviews.filterMap (fun r => reviewDateKey r.review_date)).length := by
  have main : ∀ (l : List Review) (init : List (PyDateTime × List Review)),
      ((l.foldl (fun bs r =>
          match reviewDateKey r.review_date with
          | none => bs
          | some k => bucketInsert k r bs) init).map (fun b => b.2.length)).sum =
        ((init.map (fun b => b.2.length)).sum) +
          (l.filterMap (fun r => reviewDateKey r.review_date)).length := by
    intro l
    induction l with
    | nil => intro init; simp
    | cons hd tl ih =>
      intro init
      cases hk : reviewDateKey hd.review_date with
      | none => simp [List.foldl_cons, hk, List.filterMap_cons, ih]
      | some k =>
        simp only [List.foldl_cons, hk, List.filterMap_cons, ih,
          bucketInsert_size_sum, List.length_cons]
        omega
  simpa [timingBuckets] using main reviews []

/-- The flagged clusters of the timing rule cover at most the bucketed
reviews. -/
lemma clusters_count_sum_le (mcs : Nat) :
    ∀ bs : List (PyDateTime × List Review),
      ((bs.filterMap (fun b =>
          if mcs ≤ b.2.length then
            some ({ timestamp := b.1.isoformat, count := b.2.length,
                    review_ids := b.2.map (·.id),
                    reviewers := b.2.map (·.reviewer_name) } : TimingCluster)
          else none)).map (·.count)).sum ≤ (bs.map (fun b => b.2.length)).sum := by
  intro bs
  induction bs with
  | nil => simp
  | cons hd tl ih =>
    by_cases h : mcs ≤ hd.2.length
    · simp only [List.filterMap_cons, if_pos h, List.map_cons, List.sum_cons]
      exact Nat.add_le_add_left ih _
    · simp only [List.filterMap_cons, if_neg h, List.map_cons, List.sum_cons]
      exact le_trans ih (Nat.le_add_left _ _)

/-- An element mapped to `none` makes `filterMap` strictly shorter than the
input list. -/
lemma filterMap_length_lt_of_mem_none {α β : Type} (f : α → Option β) :
    ∀ (l : List α) (r : α), r ∈ l → f r = none → (l.filterMap f).length < l.length := by
  intro l
  induction l with
  | nil => intro r hr; cases hr
  | cons a t ih =>
    intro r hr hn
    rcases List.mem_cons.mp hr with rfl | hmem
    · simp only [List.filterMap_cons, hn]
      exact Nat.lt_succ_of_le (List.length_filterMap_le f t)
    · cases ha : f a with
      | none =>
        simp only [List.filterMap_cons, ha, List.length_cons]
        exact Nat.lt_succ_of_lt (ih r hmem hn)
      | some b =>
        simp only [List.filterMap_cons, ha, List.length_cons]
        exact Nat.succ_lt_succ (ih r hmem hn)

/-- C10: a review whose `review_date` is neither a `datetime` nor an
ISO-parseable string lands in no minute bucket yet still counts in the
denominator, so any review list of length at least 2 containing such a
review scores strictly below 100. -/
theorem C10_invalid_date_keeps_score_below_100 :
    ∀ (min_cluster_size : Nat) (reviews : List Review) (business : Business),
      2 ≤ reviews.length →
      (∃ r ∈ reviews, reviewDateKey r.review_date = none) →
      (TimingAnalysisRule.analyze min_cluster_size reviews business).score < 100 := by
  intro mcs reviews business hlen hex
  obtain ⟨r, hr, hkey⟩ := hex
  have hvalid : (reviews.filterMap (fun r => reviewDateKey r.review_date)).length <
      reviews.length :=
    filterMap_length_lt_of_mem_none _ reviews r hr hkey
  have key : ∀ (cnt n : Nat), cnt < n → ((cnt : ℚ) / (n : ℚ)) * 100 < 100 := by
    intro cnt n h
    have hn0 : (0:ℚ) < (n : ℚ) := by
      have : 0 < n := by omega
      exact_mod_cast this
    rw [div_mul_eq_mul_div, div_lt_iff₀ hn0]
    have hcq : (cnt : ℚ) < (n : ℚ) := by exact_mod_cast h
    nlinarith
  unfold TimingAnalysisRule.analyze
  rw [if_neg (by omega)]
  have hne : ¬ (reviews = []) := by
    intro h
    subst h
    simp at hlen
  dsimp only
  rw [if_neg hne]
  apply lt_of_le_of_lt (min_le_left _ _)
  exact key _ _ (lt_of_le_of_lt (clusters_count_sum_le mcs (timingBuckets reviews))
    (by rw [timingBuckets_size_sum]; exact hvalid))

/-- A second review row in the same minute as `sampleReview1`. -/
def sampleReview2 : Review :=
  { id := 2, business_id := 1, reviewer_id := 12,
    review_text := "Great coffee and lovely staff!",
    rating := 5, review_date := RDate.strVal "2024-01-01T10:00:45",
    language := some "en", reviewer_name := "Bob", reviewer_total_reviews := some 1 }

/-- A review row whose date value is neither a `datetime` nor a parseable
string. -/
def invalidDateReview : Review :=
  { id := 3, business_id := 1, reviewer_id := 13, review_text := "ok",
    rating := 4, review_date := RDate.otherVal, language := some "en",
    reviewer_name := "Carol", reviewer_total_reviews := some 1 }

/-- Witness for C10: two reviews share one minute (a full cluster) and a
third has an invalid date value, so the timing score stays below 100. -/
theorem C10_invalid_date_keeps_score_below_100_witness :
    (TimingAnalysisRule.analyze 2 [sampleReview1, sampleReview2, invalidDateReview]
      sampleBusiness).score < 100 :=
  C10_invalid_date_keeps_score_below_100 2 _ sampleBusiness (by decide)
    ⟨invalidDateReview, by simp, rfl⟩

/-- A text none of whose characters satisfies the (mis-escaped) Hebrew
comparison is classified `"en"` by `_detect_language`. -/
lemma detect_language_en_of_no_matches (s : String)
    (h : (s.toList.filter (fun c =>
      pyStrLe "\\u0590".toList [c] && pyStrLe [c] "\\u05FF".toList)).length = 0) :
    GoogleMapsScraper.detect_language s = "en" := by
  unfold GoogleMapsScraper.detect_language
  split
  · rfl
  · dsimp only
    rw [h]
    have hcond : ¬ (0 < s.toList.length ∧
        (3/10 : ℚ) < ((0 : Nat) : ℚ) / (s.toList.length : ℚ)) := by
      rintro ⟨-, hlt⟩
      rw [Nat.cast_zero, zero_div] at hlt
      norm_num at hlt
    rw [if_neg hcond]

/-- C1 (code bug): the relative-time pattern is written
`r'(\\d+)\\s+(second|…)'`, whose doubled backslashes stand for literal
backslash characters, so it never matches a backslash-free string such as
`"2 weeks ago"`; the function returns the capture instant unchanged instead
of subtracting 14 days, contradicting its own docstring examples. -/
theorem C1_parse_relative_time_never_subtracts :
    GoogleMapsScraper.parse_relative_time "2 weeks ago" 1700000000 =
      Except.ok 1700000000
    ∧ (1700000000 : ℚ) - 14 * 86400 ≠ 1700000000 :=
  ⟨rfl, by norm_num⟩

/-- C5 (code bug): `"שלום"` consists entirely of Hebrew-block characters
(well over the 30% threshold), yet `_detect_language` classifies it `"en"`,
because its bounds `'\\u0590'`/`'\\u05FF'` are literal six-character strings
and the comparison never holds for any single character. -/
theorem C5_detect_language_never_hebrew :
    GoogleMapsScraper.detect_language "שלום" = "en"
    ∧ (3/10 : ℚ) <
        (("שלום".toList.filter hebrewBlockChar).length : ℚ) /
          (("שלום".toList.length : ℚ)) := by
  constructor
  · exact detect_language_en_of_no_matches _ rfl
  · have h1 : ("שלום".toList.filter hebrewBlockChar).length = 4 := rfl
    have h2 : "שלום".toList.length = 4 := rfl
    rw [h1, h2]
    norm_num

/-- A fully populated review element on which every selector succeeds and
nothing raises: the name node reads "Alice", the rating node carries
`aria-label` "4 stars", the text and time nodes are present, and the
profile popup reports "12 reviews". -/
def sampleElement : ReviewElement :=
  { nameElem := ElemQuery.found "Alice"
    ratingElem := ElemQuery.found (some "4 stars")
    moreButton := ElemQuery.absent
    textElem := ElemQuery.found "Great coffee and lovely staff"
    timeElem := ElemQuery.found "2 weeks ago"
    reviewerButton := ElemQuery.found ()
    profileElem := ElemQuery.found (some "12 reviews")
    closeButton := ElemQuery.found () }

/-- A review element on which every selector finds nothing (and nothing
raises). -/
def emptyElement : ReviewElement :=
  { nameElem := ElemQuery.absent
    ratingElem := ElemQuery.absent
    moreButton := ElemQuery.absent
    textElem := ElemQuery.absent
    timeElem := ElemQuery.absent
    reviewerButton := ElemQuery.absent
    profileElem := ElemQuery.absent
    closeButton := ElemQuery.absent }

/-- C6 (code bug): on a fully populated element the rating sub-extraction
finds `aria-label` "4 stars" but the mis-escaped pattern `r'(\\d+) star'`
never matches, so the `rating` key is never assigned (neither the parsed 4
nor the documented default 5), and the profile's "12 reviews" likewise
never parses (the count silently becomes 1); on an element whose selectors
all find nothing, the `reviewer_name`, `rating` and `timestamp` keys are
all left unassigned instead of receiving the documented `"Unknown"`/5
defaults — only `text` and the total-review count get their defaults. -/
theorem C6_extraction_leaves_fields_unassigned :
    GoogleMapsScraper.extract_review_data sampleElement 1700000000 =
      some { reviewer_name := some "Alice", rating := none,
             text := some "Great coffee and lovely staff",
             timestamp := some 1700000000,
             reviewer_total_reviews := some 1,
             language := some "en" }
    ∧ GoogleMapsScraper.extract_review_data emptyElement 1700000000 =
      some { reviewer_name := none, rating := none,
             text := some "",
             timestamp := none,
             reviewer_total_reviews := some 1,
             language := some "en" } := by
  constructor
  · have hdet : GoogleMapsScraper.detect_language "Great coffee and lovely staff" = "en" :=
      detect_language_en_of_no_matches _ rfl
    calc GoogleMapsScraper.extract_review_data sampleElement 1700000000
        = some { reviewer_name := some "Alice", rating := none,
                 text := some "Great coffee and lovely staff",
                 timestamp := some 1700000000,
                 reviewer_total_reviews := some 1,
                 language := some (GoogleMapsScraper.detect_language
                   "Great coffee and lovely staff") } := rfl
      _ = _ := by rw [hdet]
  · rfl

/-- C7: the pre-scrape cache check serves the stored report exactly when a
business row exists whose `last_analyzed` is non-null (sqlite stores
`CURRENT_TIMESTAMP`, never an empty string), and its verdict is the same
for every configured cache duration and request instant — the freshness
window is never consulted. -/
theorem C7_cache_gate_ignores_freshness :
    (∀ (d dd n nn : ℚ) (existing_business : Option Business),
      analyzeCacheGate d n existing_business = analyzeCacheGate dd nn existing_business)
    ∧ (∀ (d n : ℚ), analyzeCacheGate d n none = false)
    ∧ (∀ (d n : ℚ) (b : Business),
        (∀ s, b.last_analyzed = some s → s ≠ "") →
        analyzeCacheGate d n (some b) = b.last_analyzed.isSome) := by
  refine ⟨fun d dd n nn existing_business => rfl, fun d n => rfl, ?_⟩
  intro d n b h
  cases hb : b.last_analyzed with
  | none => simp [analyzeCacheGate, hb]
  | some s => simp [analyzeCacheGate, hb, h s hb]

/-- A business row whose `last_analyzed` timestamp is set. -/
def analyzedBusiness : Business :=
  { sampleBusiness with last_analyzed := some "2024-05-01 10:05:00" }

/-- Witness for C7: an already-analyzed business is served from cache under
the configured 24-hour setting (and under any other), at any request
instant. -/
theorem C7_cache_gate_ignores_freshness_witness :
    analyzeCacheGate CACHE_DURATION_HOURS 1700000000 (some analyzedBusiness) =
      (analyzedBusiness.last_analyzed).isSome :=
  C7_cache_gate_ignores_freshness.2.2 CACHE_DURATION_HOURS 1700000000 analyzedBusiness
    (by intro s hs; cases hs; decide)

/-- C8: the listing URL with `/place/Coffee+Shop/@31.5,34.5,17z` resolves
to business name "Coffee Shop" (URL-decoded, `+` as space), coordinates
(31.5, 34.5) and `is_valid` true; an unrelated domain and the empty string
resolve invalid; and in general the result is valid exactly when a business
name or coordinates were recovered. -/
theorem C8_url_resolution :
    parse_google_maps_url (fun _ => none)
        "https://www.google.com/maps/place/Coffee+Shop/@31.5,34.5,17z" =
      { is_valid := true,
        original_url := "https://www.google.com/maps/place/Coffee+Shop/@31.5,34.5,17z",
        final_url := "https://www.google.com/maps/place/Coffee+Shop/@31.5,34.5,17z",
        business_name := some "Coffee Shop",
        place_id := none,
        coordinates := some (63/2, 69/2) }
    ∧ (parse_google_maps_url (fun _ => none) "https://example.com").is_valid = false
    ∧ (parse_google_maps_url (fun _ => none) "").is_valid = false
    ∧ (∀ (redirect : String → Option String) (url : String),
        (parse_google_maps_url redirect url).is_valid =
          ((parse_google_maps_url redirect url).business_name.isSome ||
            (parse_google_maps_url redirect url).coordinates.isSome)) := by
  refine ⟨?_, rfl, rfl, ?_⟩
  · have h1 : parse_google_maps_url (fun _ => none)
        "https://www.google.com/maps/place/Coffee+Shop/@31.5,34.5,17z" =
        { is_valid := true,
          original_url := "https://www.google.com/maps/place/Coffee+Shop/@31.5,34.5,17z",
          final_url := "https://www.google.com/maps/place/Coffee+Shop/@31.5,34.5,17z",
          business_name := some "Coffee Shop",
          place_id := none,
          coordinates := some
            (((31 : Nat) : ℚ) + ((5 : Nat) : ℚ) / (10 : ℚ) ^ (1 : Nat),
             ((34 : Nat) : ℚ) + ((5 : Nat) : ℚ) / (10 : ℚ) ^ (1 : Nat)) } := rfl
    rw [h1,
      show ((31 : Nat) : ℚ) + ((5 : Nat) : ℚ) / (10 : ℚ) ^ (1 : Nat) = 63/2 by
        push_cast; norm_num,
      show ((34 : Nat) : ℚ) + ((5 : Nat) : ℚ) / (10 : ℚ) ^ (1 : Nat) = 69/2 by
        push_cast; norm_num]
  · intro redirect url
    unfold parse_google_maps_url
    split
    · rfl
    split
    · rfl
    dsimp only
    split
    · rfl
    · rfl
